import Mathlib

set_option maxRecDepth 8000

/-!
Shallow embedding of the immutable HTTP client-request builder found in
`src/packages/platform/src/internal/http/clientRequest.ts`, together with
models, taken from the specification, of the helper modules it imports
(the headers record, the url-parameter list, the body module) and of the
platform primitives it calls (the parsed-URL object and the base64
primitive), none of which are under `src/`.
-/

/-- Lowercasing of a string, modelling the JavaScript `toLowerCase`
call applied to the ASCII header names used by the builder. -/
def lowerStr (s : String) : String := String.mk (s.toList.map Char.toLower)

/-- Whether `s` ends with `t` (list-based, so that concrete instances
reduce inside the kernel). -/
def strEndsWith (s t : String) : Bool := List.isSuffixOf t.toList s.toList

/-- Whether `s` starts with `t` (list-based). -/
def strStartsWith (s t : String) : Bool := List.isPrefixOf t.toList s.toList

/-- The string without its first `n` characters (list-based). -/
def strDrop (s : String) (n : Nat) : String := String.mk (s.toList.drop n)

/-- The fixed enumeration of HTTP methods (the `Method` type). -/
inductive Method where
  | GET
  | POST
  | PUT
  | PATCH
  | DELETE
  | HEAD
  | OPTIONS
  deriving DecidableEq

/-- Modelled from the spec: the headers module is not under `src/`; the
spec describes headers as a mapping from case-insensitive header name to
string value, last-write-wins on collision. The record is modelled as an
association list whose keys are stored lowercased. -/
abbrev Headers := List (String × String)

/-- The empty headers record. -/
def Headers.empty : Headers := []

/-- Lookup by an already-lowercased key. -/
def Headers.lookupLower : Headers → String → Option String
  | [], _ => none
  | p :: t, k => if p.1 = k then some p.2 else Headers.lookupLower t k

/-- Remove every entry with the given already-lowercased key. -/
def Headers.eraseKey : Headers → String → Headers
  | [], _ => []
  | p :: t, k => if p.1 = k then Headers.eraseKey t k else p :: Headers.eraseKey t k

/-- Modelled from the spec: case-insensitive read access to a header. -/
def Headers.get (self : Headers) (key : String) : Option String :=
  Headers.lookupLower self (lowerStr key)

/-- Modelled from the spec: set a header case-insensitively, last write
wins. -/
def Headers.set (self : Headers) (key value : String) : Headers :=
  Headers.eraseKey self (lowerStr key) ++ [(lowerStr key, value)]

/-- Modelled from the spec: remove a header case-insensitively. -/
def Headers.remove (self : Headers) (key : String) : Headers :=
  Headers.eraseKey self (lowerStr key)

/-- Modelled from the spec: set every entry of the given input. -/
def Headers.setAll (self : Headers) (input : List (String × String)) : Headers :=
  input.foldl (fun acc p => Headers.set acc p.1 p.2) self

/-- Modelled from the spec: the url-parameter module is not under `src/`;
the spec describes query parameters as an ordered sequence of (key, value)
string pairs, duplicate keys permitted and preserved in insertion order. -/
abbrev UrlParams := List (String × String)

/-- The empty parameter list. -/
def UrlParams.empty : UrlParams := []

/-- Append a single pair, keeping earlier entries. -/
def UrlParams.append (self : UrlParams) (key value : String) : UrlParams :=
  self ++ [(key, value)]

/-- Append all given pairs, keeping earlier entries. -/
def UrlParams.appendAll (self : UrlParams) (input : List (String × String)) : UrlParams :=
  self ++ input

/-- Replace every entry with the given key by the single new pair. -/
def UrlParams.set (self : UrlParams) (key value : String) : UrlParams :=
  self.filter (fun p => p.1 != key) ++ [(key, value)]

/-- Replace every entry whose key occurs in the input. -/
def UrlParams.setAll (self : UrlParams) (input : List (String × String)) : UrlParams :=
  self.filter (fun p => input.all fun q => q.1 != p.1) ++ input

/-- Conversion from an entry list input. -/
def UrlParams.fromInput (input : List (String × String)) : UrlParams := input

/-- Modelled from the spec: serialization of the parameters in the shape
`k1=v1&k2=v2`; percent-encoding is the identity on the unreserved
characters exercised here. -/
def UrlParams.toString (self : UrlParams) : String :=
  String.intercalate "&" (self.map fun p => p.1 ++ "=" ++ p.2)

/-- Body-encoding failures: the `Body.BodyError` type that the source
declares as the error channel of the JSON and schema body setters. -/
inductive BodyError where
  | jsonError
  | schemaError
  deriving DecidableEq

/-- Platform I/O failures reported by the filesystem collaborator, the
error channel the source declares on the file body setter. -/
inductive PlatformError where
  | ioError (message : String)
  deriving DecidableEq

/-- Modelled from the spec: the body module is not under `src/`; the spec
describes the body as a tagged variant Empty, Raw bytes (with
content-type), Text (with content-type), FormEncoded and Streamed (with
content-type and optional content-length).  The form-encoded case built by
the source is a text body with a form content type, so the extra
`formData` variant carries no metadata. -/
inductive Body where
  | empty
  | uint8Array (bytes : List Nat) (contentType : String)
  | text (content : String) (contentType : String)
  | formData
  | stream (contentType : String) (contentLength : Option Nat)
  deriving DecidableEq

/-- The content type carried by a body variant; the empty string models a
JavaScript field that is absent, which `setBody` observes as falsy. -/
def Body.contentType : Body → String
  | .empty => ""
  | .uint8Array _ ct => ct
  | .text _ ct => ct
  | .formData => ""
  | .stream ct _ => ct

/-- The content length carried by a body variant; a text body carries the
UTF-8 byte length of its content, as the spec's body-header example
(content-length "2" for the text "hi") requires. -/
def Body.contentLength : Body → Option Nat
  | .empty => none
  | .uint8Array bs _ => some bs.length
  | .text s _ => some s.utf8ByteSize
  | .formData => none
  | .stream _ cl => cl

/-- Modelled from the spec: the JavaScript values a JSON body may be built
from.  The `bigintVal` constructor stands for the values that JSON
serialization rejects, the spec's body-encoding failure where
serialization rejected the value. -/
inductive JSValue where
  | null
  | bool (b : Bool)
  | num (n : Int)
  | str (s : String)
  | bigintVal (n : Int)
  deriving DecidableEq

/-- Modelled from the spec: JSON serialization of a JavaScript value,
`none` when serialization rejects the value. -/
def jsonStringify? : JSValue → Option String
  | .null => some "null"
  | .bool b => some (cond b "true" "false")
  | .num n => some (toString n)
  | .str s => some ("\"" ++ s ++ "\"")
  | .bigintVal _ => none

namespace internalBody

/-- Modelled from the spec: the empty body constant of the body module. -/
def empty : Body := Body.empty

/-- Modelled from the spec: a text body with the given content type. -/
def text (content : String) (contentType : String) : Body :=
  Body.text content contentType

/-- Modelled from the spec: a raw-bytes body with the given content type. -/
def uint8Array (bytes : List Nat) (contentType : String) : Body :=
  Body.uint8Array bytes contentType

/-- Modelled from the spec: a streamed body with an optional content
length; the stream payload itself is handled by the external runtime and
carries no information used by the builder. -/
def stream (contentType : String) (contentLength : Option Nat) : Body :=
  Body.stream contentType contentLength

/-- Modelled from the spec and from the `Body.BodyError` channel that the
source declares on the JSON body setter: fallible JSON encoding of a
value into a text body with the `application/json` content type. -/
def json (body : JSValue) : Except BodyError Body :=
  match jsonStringify? body with
  | some s => Except.ok (Body.text s "application/json")
  | none => Except.error BodyError.jsonError

end internalBody

/-- Split a character list at the first occurrence of `c`: the part before
it and, when `c` occurs, the part after it. -/
def splitCh : List Char → Char → List Char × Option (List Char)
  | [], _ => ([], none)
  | x :: xs, c =>
    if x = c then ([], some xs)
    else
      let r := splitCh xs c
      (x :: r.1, r.2)

/-- Whether a character occurs in a character list. -/
def hasCharL : List Char → Char → Bool
  | [], _ => false
  | x :: xs, c => x == c || hasCharL xs c

/-- Whether a character occurs in a string. -/
def hasChar (s : String) (c : Char) : Bool := hasCharL s.toList c

/-- Split a character list on every occurrence of `c`, with an
accumulator for the current segment. -/
def splitAllGo (c : Char) : List Char → List Char → List (List Char)
  | [], acc => [acc.reverse]
  | x :: xs, acc =>
    if x = c then acc.reverse :: splitAllGo c xs []
    else splitAllGo c xs (x :: acc)

/-- Modelled from the spec: parsing a query string (without its leading
question mark) into ordered key-value pairs, as the platform search-param
primitive does on the inputs exercised here: segments split on the
ampersand, each segment split at its first equals sign, empty segments
skipped. -/
def parseQuery (s : String) : UrlParams :=
  (splitAllGo '&' s.toList []).filterMap fun seg =>
    match seg with
    | [] => none
    | _ =>
      match splitCh seg '=' with
      | (k, some v) => some (String.mk k, String.mk v)
      | (k, none) => some (String.mk k, "")

/-- Modelled from the spec: the parsed-URL object supplied by the platform
URL primitive, holding the base (scheme, host and path), the search part
(with its leading question mark when nonempty) and the hash part (with
its leading number sign when nonempty). -/
structure URL where
  base : String
  search : String
  hash : String
  deriving DecidableEq

/-- Modelled from the spec: parsing a URL string, decomposing at the first
number sign into the hash part and, before it, at the first question mark
into the search part. -/
def URL.ofString (s : String) : URL :=
  let h := splitCh s.toList '#'
  let q := splitCh h.1 '?'
  { base := String.mk q.1
    search := match q.2 with | some r => String.mk ('?' :: r) | none => ""
    hash := match h.2 with | some r => String.mk ('#' :: r) | none => "" }

/-- Modelled from the spec: serialization of a parsed URL. -/
def URL.toString (u : URL) : String := u.base ++ u.search ++ u.hash

/-- Modelled from the spec: the decomposed query parameters of a parsed
URL. -/
def URL.searchParams (u : URL) : UrlParams := parseQuery (strDrop u.search 1)

/-- The base64 alphabet, indexed by a six-bit value. -/
def base64Char (n : Nat) : Char :=
  "ABCDEFGHIJKLMNOPQRSTUVWXYZabcdefghijklmnopqrstuvwxyz0123456789+/".toList.getD n 'A'

/-- Base64 encoding of a byte list, three bytes to four characters, with
padding. -/
def b64Encode : List Nat → List Char
  | [] => []
  | [a] => [base64Char (a / 4), base64Char (a % 4 * 16), '=', '=']
  | [a, b] =>
    [base64Char (a / 4), base64Char (a % 4 * 16 + b / 16), base64Char (b % 16 * 4), '=']
  | a :: b :: c :: rest =>
    base64Char (a / 4) :: base64Char (a % 4 * 16 + b / 16) ::
      base64Char (b % 16 * 4 + c / 64) :: base64Char (c % 64) :: b64Encode rest

/-- Modelled from the spec: the externally supplied base64 primitive,
encoding the code points of a Latin-1 string. -/
def btoa (s : String) : String :=
  String.mk (b64Encode (s.toList.map Char.toNat))

/-- The immutable request descriptor: the six fields assigned by
`makeInternal` in the source. -/
structure ClientRequest where
  method : Method
  url : String
  urlParams : UrlParams
  hash : Option String
  headers : Headers
  body : Body
  deriving DecidableEq

/-- A `url` argument as received by `setUrl` and the constructors: either
a plain string or a parsed-URL object. -/
inductive UrlInput where
  | str (s : String)
  | url (u : URL)
  deriving DecidableEq

/-- JavaScript truthiness of a url value: a string is truthy when
nonempty, a URL object always. -/
def urlTruthy : UrlInput → Bool
  | .str s => !(s == "")
  | .url _ => true

namespace ClientRequest

/-- `makeInternal`: assembles a descriptor from its six fields. -/
def makeInternal (method : Method) (url : String) (urlParams : UrlParams)
    (hash : Option String) (headers : Headers) (body : Body) : ClientRequest :=
  { method := method, url := url, urlParams := urlParams, hash := hash,
    headers := headers, body := body }

/-- The `empty` descriptor. -/
def empty : ClientRequest :=
  makeInternal Method.GET "" UrlParams.empty none Headers.empty internalBody.empty

/-- `setHeader`: set one header, case-insensitively. -/
def setHeader (self : ClientRequest) (key value : String) : ClientRequest :=
  makeInternal self.method self.url self.urlParams self.hash
    (Headers.set self.headers key value) self.body

/-- `setHeaders`: set every header of the input. -/
def setHeaders (self : ClientRequest) (input : List (String × String)) : ClientRequest :=
  makeInternal self.method self.url self.urlParams self.hash
    (Headers.setAll self.headers input) self.body

/-- `basicAuth`: sets the Authorization header to the Basic scheme tag
followed by the base64 encoding of `username:password`. -/
def basicAuth (self : ClientRequest) (username password : String) : ClientRequest :=
  setHeader self "Authorization" ("Basic " ++ btoa (username ++ ":" ++ password))

/-- `bearerToken`: sets the Authorization header to the Bearer scheme tag
followed by the token. -/
def bearerToken (self : ClientRequest) (token : String) : ClientRequest :=
  setHeader self "Authorization" ("Bearer " ++ token)

/-- `accept`: sets the Accept header. -/
def accept (self : ClientRequest) (mediaType : String) : ClientRequest :=
  setHeader self "Accept" mediaType

/-- `acceptJson`: sets the Accept header to `application/json`. -/
def acceptJson (self : ClientRequest) : ClientRequest :=
  accept self "application/json"

/-- `setMethod`: replaces the method. -/
def setMethod (self : ClientRequest) (method : Method) : ClientRequest :=
  makeInternal method self.url self.urlParams self.hash self.headers self.body

/-- `setUrl`: a string is stored verbatim; a parsed-URL object is cloned
by reserializing and reparsing, its query decomposed into `urlParams`,
its hash (minus the leading number sign) into `hash`, and its base (the
serialization with search and hash cleared) stored as `url`. -/
def setUrl (self : ClientRequest) (input : UrlInput) : ClientRequest :=
  match input with
  | .str url =>
    makeInternal self.method url self.urlParams self.hash self.headers self.body
  | .url u =>
    let clone := URL.ofString (URL.toString u)
    let urlParams := UrlParams.fromInput (URL.searchParams clone)
    let hash := if clone.hash = "" then none else some (strDrop clone.hash 1)
    makeInternal self.method clone.base urlParams hash self.headers self.body

/-- `appendUrl`: concatenates a path, dropping the path's leading slash
exactly when the current url ends with one and the path starts with one. -/
def appendUrl (self : ClientRequest) (url : String) : ClientRequest :=
  makeInternal self.method
    (if strEndsWith self.url "/" && strStartsWith url "/" then self.url ++ strDrop url 1
     else self.url ++ url)
    self.urlParams self.hash self.headers self.body

/-- `prependUrl`: concatenates a path in front, dropping the current
url's leading slash exactly when the path ends with one and the current
url starts with one. -/
def prependUrl (self : ClientRequest) (url : String) : ClientRequest :=
  makeInternal self.method
    (if strEndsWith url "/" && strStartsWith self.url "/" then url ++ strDrop self.url 1
     else url ++ self.url)
    self.urlParams self.hash self.headers self.body

/-- `appendUrlParam`: appends one query parameter. -/
def appendUrlParam (self : ClientRequest) (key value : String) : ClientRequest :=
  makeInternal self.method self.url (UrlParams.append self.urlParams key value)
    self.hash self.headers self.body

/-- `appendUrlParams`: appends all given query parameters. -/
def appendUrlParams (self : ClientRequest) (input : List (String × String)) : ClientRequest :=
  makeInternal self.method self.url (UrlParams.appendAll self.urlParams input)
    self.hash self.headers self.body

/-- `setUrlParam`: replaces one query parameter. -/
def setUrlParam (self : ClientRequest) (key value : String) : ClientRequest :=
  makeInternal self.method self.url (UrlParams.set self.urlParams key value)
    self.hash self.headers self.body

/-- `setUrlParams`: replaces all given query parameters. -/
def setUrlParams (self : ClientRequest) (input : List (String × String)) : ClientRequest :=
  makeInternal self.method self.url (UrlParams.setAll self.urlParams input)
    self.hash self.headers self.body

/-- `setHash`: replaces the fragment. -/
def setHash (self : ClientRequest) (hash : String) : ClientRequest :=
  makeInternal self.method self.url self.urlParams (some hash) self.headers self.body

/-- `removeHash`: clears the fragment. -/
def removeHash (self : ClientRequest) : ClientRequest :=
  makeInternal self.method self.url self.urlParams none self.headers self.body

/-- `setBody`: an Empty body removes the two content headers; a non-Empty
body sets `content-type` and `content-length` whenever the corresponding
metadata value is truthy, and leaves them untouched otherwise. -/
def setBody (self : ClientRequest) (body : Body) : ClientRequest :=
  let headers := self.headers
  let headers :=
    match body with
    | Body.empty =>
      Headers.remove (Headers.remove headers "Content-Type") "Content-length"
    | _ =>
      let headers :=
        if Body.contentType body = "" then headers
        else Headers.set headers "content-type" (Body.contentType body)
      match Body.contentLength body with
      | some n =>
        if n = 0 then headers else Headers.set headers "content-length" (toString n)
      | none => headers
  makeInternal self.method self.url self.urlParams self.hash headers body

/-- `textBody`: sets a text body, defaulting the content type. -/
def textBody (self : ClientRequest) (body : String)
    (contentType : String := "text/plain") : ClientRequest :=
  setBody self (internalBody.text body contentType)

/-- `uint8ArrayBody`: sets a raw-bytes body, defaulting the content type. -/
def uint8ArrayBody (self : ClientRequest) (body : List Nat)
    (contentType : String := "application/octet-stream") : ClientRequest :=
  setBody self (internalBody.uint8Array body contentType)

/-- `streamBody`: sets a streamed body, defaulting the content type. -/
def streamBody (self : ClientRequest) (contentLength : Option Nat)
    (contentType : String := "application/octet-stream") : ClientRequest :=
  setBody self (internalBody.stream contentType contentLength)

/-- `jsonBody`: fallibly encodes a value as JSON and sets the resulting
body; the error channel is the declared `Body.BodyError`. -/
def jsonBody (self : ClientRequest) (body : JSValue) :
    Except BodyError ClientRequest :=
  Except.map (fun b => setBody self b) (internalBody.json body)

/-- `schemaBody`: given the schema collaborator's fallible encoder,
encodes the value and sets the resulting body. -/
def schemaBody {α : Type} (encode : α → Except BodyError Body)
    (self : ClientRequest) (body : α) : Except BodyError ClientRequest :=
  Except.map (fun b => setBody self b) (encode body)

/-- `fileBody`: given the filesystem collaborator's fallible read, builds
the file body and sets it; the error channel is the platform I/O error. -/
def fileBody (readFile : String → Except PlatformError Body)
    (self : ClientRequest) (path : String) : Except PlatformError ClientRequest :=
  Except.map (fun b => setBody self b) (readFile path)

/-- The recognized options of `modify`; absent fields are `none`, and the
`acceptJson` flag is a boolean. -/
structure Options where
  method : Option Method := none
  url : Option UrlInput := none
  headers : Option (List (String × String)) := none
  urlParams : Option (List (String × String)) := none
  hash : Option String := none
  body : Option Body := none
  accept : Option String := none
  acceptJson : Bool := false
  deriving DecidableEq

/-- The method step of `modify` (one if-statement of the source). -/
def modifyMethod (o : Options) (result : ClientRequest) : ClientRequest :=
  match o.method with
  | some m => setMethod result m
  | none => result

/-- The url step of `modify`; a present empty-string url is falsy and
skipped. -/
def modifyUrl (o : Options) (result : ClientRequest) : ClientRequest :=
  match o.url with
  | some u => if urlTruthy u then setUrl result u else result
  | none => result

/-- The headers step of `modify`. -/
def modifyHeaders (o : Options) (result : ClientRequest) : ClientRequest :=
  match o.headers with
  | some i => setHeaders result i
  | none => result

/-- The url-parameters step of `modify`. -/
def modifyUrlParams (o : Options) (result : ClientRequest) : ClientRequest :=
  match o.urlParams with
  | some i => setUrlParams result i
  | none => result

/-- The hash step of `modify`; a present empty-string hash is falsy and
skipped. -/
def modifyHash (o : Options) (result : ClientRequest) : ClientRequest :=
  match o.hash with
  | some h => if h = "" then result else setHash result h
  | none => result

/-- The body step of `modify`. -/
def modifyBody (o : Options) (result : ClientRequest) : ClientRequest :=
  match o.body with
  | some b => setBody result b
  | none => result

/-- The accept step of `modify`; a present empty-string media type is
falsy and skipped. -/
def modifyAccept (o : Options) (result : ClientRequest) : ClientRequest :=
  match o.accept with
  | some a => if a = "" then result else accept result a
  | none => result

/-- The accept-json step of `modify`. -/
def modifyAcceptJson (o : Options) (result : ClientRequest) : ClientRequest :=
  if o.acceptJson then acceptJson result else result

/-- `modify`: applies the present truthy options in the fixed order
method, url, headers, urlParams, hash, body, accept, acceptJson; each
step corresponds to one if-statement of the source. -/
def modify (self : ClientRequest) (o : Options) : ClientRequest :=
  modifyAcceptJson o (modifyAccept o (modifyBody o (modifyHash o
    (modifyUrlParams o (modifyHeaders o (modifyUrl o (modifyMethod o self)))))))

/-- `make`: builds a fresh descriptor by modifying `empty` with the given
method and url merged into the options; spread semantics let a method or
url present in the options override the arguments. -/
def make (m : Method) (u : UrlInput) (o : Options := {}) : ClientRequest :=
  modify empty
    { o with
      method := o.method.orElse fun _ => some m
      url := o.url.orElse fun _ => some u }

/-- The GET constructor. -/
def get (u : UrlInput) (o : Options := {}) : ClientRequest := make Method.GET u o

/-- The POST constructor. -/
def post (u : UrlInput) (o : Options := {}) : ClientRequest := make Method.POST u o

/-- The PUT constructor. -/
def put (u : UrlInput) (o : Options := {}) : ClientRequest := make Method.PUT u o

/-- The PATCH constructor. -/
def patch (u : UrlInput) (o : Options := {}) : ClientRequest := make Method.PATCH u o

/-- The DELETE constructor. -/
def del (u : UrlInput) (o : Options := {}) : ClientRequest := make Method.DELETE u o

/-- The HEAD constructor. -/
def head (u : UrlInput) (o : Options := {}) : ClientRequest := make Method.HEAD u o

/-- The OPTIONS constructor. -/
def options (u : UrlInput) (o : Options := {}) : ClientRequest := make Method.OPTIONS u o

end ClientRequest

/-! ## Helper lemmas about the headers record -/

theorem lookupLower_eraseKey_self (l : Headers) (k : String) :
    Headers.lookupLower (Headers.eraseKey l k) k = none := by
  induction l with
  | nil => rfl
  | cons p t ih =>
    by_cases h : p.1 = k
    · simpa [Headers.eraseKey, h] using ih
    · simp [Headers.eraseKey, Headers.lookupLower, h, ih]

theorem lookupLower_eraseKey_ne (l : Headers) (k k' : String) (h : k' ≠ k) :
    Headers.lookupLower (Headers.eraseKey l k) k' = Headers.lookupLower l k' := by
  induction l with
  | nil => rfl
  | cons p t ih =>
    by_cases hp : p.1 = k
    · have hp' : p.1 ≠ k' := by rw [hp]; exact fun e => h e.symm
      simp [Headers.eraseKey, hp, Headers.lookupLower, hp', ih, Ne.symm h]
    · by_cases hq : p.1 = k'
      · simp [Headers.eraseKey, hp, Headers.lookupLower, hq, h]
      · simp [Headers.eraseKey, hp, Headers.lookupLower, hq, ih]

theorem lookupLower_append (l₁ l₂ : Headers) (k : String) :
    Headers.lookupLower (l₁ ++ l₂) k =
      match Headers.lookupLower l₁ k with
      | some v => some v
      | none => Headers.lookupLower l₂ k := by
  induction l₁ with
  | nil => rfl
  | cons p t ih =>
    by_cases hp : p.1 = k <;> simp [Headers.lookupLower, hp, ih]

theorem Headers.get_set_self (h : Headers) (k k' v : String)
    (e : lowerStr k' = lowerStr k) :
    Headers.get (Headers.set h k v) k' = some v := by
  unfold Headers.get Headers.set
  rw [e, lookupLower_append, lookupLower_eraseKey_self]
  simp [Headers.lookupLower]

theorem Headers.get_set_ne (h : Headers) (k k' v : String)
    (e : lowerStr k' ≠ lowerStr k) :
    Headers.get (Headers.set h k v) k' = Headers.get h k' := by
  unfold Headers.get Headers.set
  rw [lookupLower_append, lookupLower_eraseKey_ne _ _ _ e]
  cases hl : Headers.lookupLower h (lowerStr k') with
  | some v' => rfl
  | none => simp [Headers.lookupLower, Ne.symm e]

theorem Headers.get_remove_self (h : Headers) (k k' : String)
    (e : lowerStr k' = lowerStr k) :
    Headers.get (Headers.remove h k) k' = none := by
  unfold Headers.get Headers.remove
  rw [e]
  exact lookupLower_eraseKey_self _ _

theorem Headers.get_remove_ne (h : Headers) (k k' : String)
    (e : lowerStr k' ≠ lowerStr k) :
    Headers.get (Headers.remove h k) k' = Headers.get h k' := by
  unfold Headers.get Headers.remove
  exact lookupLower_eraseKey_ne _ _ _ e

/-! ## Helper lemmas about character splitting -/

theorem hasCharL_splitCh_self (l : List Char) (c : Char) :
    hasCharL (splitCh l c).1 c = false := by
  induction l with
  | nil => rfl
  | cons x xs ih =>
    by_cases h : x = c
    · simp [splitCh, h, hasCharL]
    · simp [splitCh, h, hasCharL, ih]

theorem hasCharL_splitCh_of (l : List Char) (c c' : Char)
    (h : hasCharL l c' = false) : hasCharL (splitCh l c).1 c' = false := by
  induction l with
  | nil => rfl
  | cons x xs ih =>
    simp only [hasCharL, Bool.or_eq_false_iff] at h
    by_cases hc : x = c
    · simp [splitCh, hc, hasCharL]
    · simp [splitCh, hc, hasCharL, h.1, ih h.2]

/-! ## Frame lemmas for the individual steps of modify -/

theorem setUrl_method (r : ClientRequest) (u : UrlInput) :
    (ClientRequest.setUrl r u).method = r.method := by cases u <;> rfl

theorem setUrl_headers (r : ClientRequest) (u : UrlInput) :
    (ClientRequest.setUrl r u).headers = r.headers := by cases u <;> rfl

theorem setUrl_body (r : ClientRequest) (u : UrlInput) :
    (ClientRequest.setUrl r u).body = r.body := by cases u <;> rfl

theorem modifyMethod_url (o : ClientRequest.Options) (r : ClientRequest) :
    (ClientRequest.modifyMethod o r).url = r.url := by
  unfold ClientRequest.modifyMethod; cases o.method <;> rfl

theorem modifyMethod_urlParams (o : ClientRequest.Options) (r : ClientRequest) :
    (ClientRequest.modifyMethod o r).urlParams = r.urlParams := by
  unfold ClientRequest.modifyMethod; cases o.method <;> rfl

theorem modifyMethod_hash (o : ClientRequest.Options) (r : ClientRequest) :
    (ClientRequest.modifyMethod o r).hash = r.hash := by
  unfold ClientRequest.modifyMethod; cases o.method <;> rfl

theorem modifyMethod_headers (o : ClientRequest.Options) (r : ClientRequest) :
    (ClientRequest.modifyMethod o r).headers = r.headers := by
  unfold ClientRequest.modifyMethod; cases o.method <;> rfl

theorem modifyMethod_body (o : ClientRequest.Options) (r : ClientRequest) :
    (ClientRequest.modifyMethod o r).body = r.body := by
  unfold ClientRequest.modifyMethod; cases o.method <;> rfl

theorem modifyMethod_method_some (o : ClientRequest.Options) (r : ClientRequest)
    (m : Method) (h : o.method = some m) :
    (ClientRequest.modifyMethod o r).method = m := by
  unfold ClientRequest.modifyMethod; rw [h]; rfl

theorem modifyUrl_method (o : ClientRequest.Options) (r : ClientRequest) :
    (ClientRequest.modifyUrl o r).method = r.method := by
  unfold ClientRequest.modifyUrl
  repeat' split
  all_goals (first | rfl | simp [setUrl_method])

theorem modifyUrl_headers (o : ClientRequest.Options) (r : ClientRequest) :
    (ClientRequest.modifyUrl o r).headers = r.headers := by
  unfold ClientRequest.modifyUrl
  repeat' split
  all_goals (first | rfl | simp [setUrl_headers])

theorem modifyUrl_body (o : ClientRequest.Options) (r : ClientRequest) :
    (ClientRequest.modifyUrl o r).body = r.body := by
  unfold ClientRequest.modifyUrl
  repeat' split
  all_goals (first | rfl | simp [setUrl_body])

theorem modifyUrl_urlParams_str (o : ClientRequest.Options) (r : ClientRequest)
    (s : String) (h : o.url = some (UrlInput.str s)) :
    (ClientRequest.modifyUrl o r).urlParams = r.urlParams := by
  unfold ClientRequest.modifyUrl; rw [h]
  show (if urlTruthy (UrlInput.str s) then ClientRequest.setUrl r (UrlInput.str s)
    else r).urlParams = r.urlParams
  split <;> rfl

theorem modifyUrl_hash_str (o : ClientRequest.Options) (r : ClientRequest)
    (s : String) (h : o.url = some (UrlInput.str s)) :
    (ClientRequest.modifyUrl o r).hash = r.hash := by
  unfold ClientRequest.modifyUrl; rw [h]
  show (if urlTruthy (UrlInput.str s) then ClientRequest.setUrl r (UrlInput.str s)
    else r).hash = r.hash
  split <;> rfl

theorem modifyHeaders_method (o : ClientRequest.Options) (r : ClientRequest) :
    (ClientRequest.modifyHeaders o r).method = r.method := by
  unfold ClientRequest.modifyHeaders; cases o.headers <;> rfl

theorem modifyHeaders_url (o : ClientRequest.Options) (r : ClientRequest) :
    (ClientRequest.modifyHeaders o r).url = r.url := by
  unfold ClientRequest.modifyHeaders; cases o.headers <;> rfl

theorem modifyHeaders_urlParams (o : ClientRequest.Options) (r : ClientRequest) :
    (ClientRequest.modifyHeaders o r).urlParams = r.urlParams := by
  unfold ClientRequest.modifyHeaders; cases o.headers <;> rfl

theorem modifyHeaders_hash (o : ClientRequest.Options) (r : ClientRequest) :
    (ClientRequest.modifyHeaders o r).hash = r.hash := by
  unfold ClientRequest.modifyHeaders; cases o.headers <;> rfl

theorem modifyHeaders_body (o : ClientRequest.Options) (r : ClientRequest) :
    (ClientRequest.modifyHeaders o r).body = r.body := by
  unfold ClientRequest.modifyHeaders; cases o.headers <;> rfl

theorem modifyHeaders_headers_none (o : ClientRequest.Options) (r : ClientRequest)
    (h : o.headers = none) :
    (ClientRequest.modifyHeaders o r).headers = r.headers := by
  unfold ClientRequest.modifyHeaders; rw [h]

theorem modifyUrlParams_method (o : ClientRequest.Options) (r : ClientRequest) :
    (ClientRequest.modifyUrlParams o r).method = r.method := by
  unfold ClientRequest.modifyUrlParams; cases o.urlParams <;> rfl

theorem modifyUrlParams_url (o : ClientRequest.Options) (r : ClientRequest) :
    (ClientRequest.modifyUrlParams o r).url = r.url := by
  unfold ClientRequest.modifyUrlParams; cases o.urlParams <;> rfl

theorem modifyUrlParams_hash (o : ClientRequest.Options) (r : ClientRequest) :
    (ClientRequest.modifyUrlParams o r).hash = r.hash := by
  unfold ClientRequest.modifyUrlParams; cases o.urlParams <;> rfl

theorem modifyUrlParams_headers (o : ClientRequest.Options) (r : ClientRequest) :
    (ClientRequest.modifyUrlParams o r).headers = r.headers := by
  unfold ClientRequest.modifyUrlParams; cases o.urlParams <;> rfl

theorem modifyUrlParams_body (o : ClientRequest.Options) (r : ClientRequest) :
    (ClientRequest.modifyUrlParams o r).body = r.body := by
  unfold ClientRequest.modifyUrlParams; cases o.urlParams <;> rfl

theorem modifyUrlParams_urlParams_none (o : ClientRequest.Options) (r : ClientRequest)
    (h : o.urlParams = none) :
    (ClientRequest.modifyUrlParams o r).urlParams = r.urlParams := by
  unfold ClientRequest.modifyUrlParams; rw [h]

theorem modifyHash_method (o : ClientRequest.Options) (r : ClientRequest) :
    (ClientRequest.modifyHash o r).method = r.method := by
  unfold ClientRequest.modifyHash
  repeat' split
  all_goals rfl

theorem modifyHash_url (o : ClientRequest.Options) (r : ClientRequest) :
    (ClientRequest.modifyHash o r).url = r.url := by
  unfold ClientRequest.modifyHash
  repeat' split
  all_goals rfl

theorem modifyHash_urlParams (o : ClientRequest.Options) (r : ClientRequest) :
    (ClientRequest.modifyHash o r).urlParams = r.urlParams := by
  unfold ClientRequest.modifyHash
  repeat' split
  all_goals rfl

theorem modifyHash_headers (o : ClientRequest.Options) (r : ClientRequest) :
    (ClientRequest.modifyHash o r).headers = r.headers := by
  unfold ClientRequest.modifyHash
  repeat' split
  all_goals rfl

theorem modifyHash_body (o : ClientRequest.Options) (r : ClientRequest) :
    (ClientRequest.modifyHash o r).body = r.body := by
  unfold ClientRequest.modifyHash
  repeat' split
  all_goals rfl

theorem modifyHash_hash_none (o : ClientRequest.Options) (r : ClientRequest)
    (h : o.hash = none) :
    (ClientRequest.modifyHash o r).hash = r.hash := by
  unfold ClientRequest.modifyHash; rw [h]

theorem modifyBody_method (o : ClientRequest.Options) (r : ClientRequest) :
    (ClientRequest.modifyBody o r).method = r.method := by
  unfold ClientRequest.modifyBody; cases o.body <;> rfl

theorem modifyBody_url (o : ClientRequest.Options) (r : ClientRequest) :
    (ClientRequest.modifyBody o r).url = r.url := by
  unfold ClientRequest.modifyBody; cases o.body <;> rfl

theorem modifyBody_urlParams (o : ClientRequest.Options) (r : ClientRequest) :
    (ClientRequest.modifyBody o r).urlParams = r.urlParams := by
  unfold ClientRequest.modifyBody; cases o.body <;> rfl

theorem modifyBody_hash (o : ClientRequest.Options) (r : ClientRequest) :
    (ClientRequest.modifyBody o r).hash = r.hash := by
  unfold ClientRequest.modifyBody; cases o.body <;> rfl

theorem modifyBody_body_none (o : ClientRequest.Options) (r : ClientRequest)
    (h : o.body = none) :
    (ClientRequest.modifyBody o r).body = r.body := by
  unfold ClientRequest.modifyBody; rw [h]

theorem modifyBody_headers_none (o : ClientRequest.Options) (r : ClientRequest)
    (h : o.body = none) :
    (ClientRequest.modifyBody o r).headers = r.headers := by
  unfold ClientRequest.modifyBody; rw [h]

theorem modifyAccept_method (o : ClientRequest.Options) (r : ClientRequest) :
    (ClientRequest.modifyAccept o r).method = r.method := by
  unfold ClientRequest.modifyAccept
  repeat' split
  all_goals rfl

theorem modifyAccept_url (o : ClientRequest.Options) (r : ClientRequest) :
    (ClientRequest.modifyAccept o r).url = r.url := by
  unfold ClientRequest.modifyAccept
  repeat' split
  all_goals rfl

theorem modifyAccept_urlParams (o : ClientRequest.Options) (r : ClientRequest) :
    (ClientRequest.modifyAccept o r).urlParams = r.urlParams := by
  unfold ClientRequest.modifyAccept
  repeat' split
  all_goals rfl

theorem modifyAccept_hash (o : ClientRequest.Options) (r : ClientRequest) :
    (ClientRequest.modifyAccept o r).hash = r.hash := by
  unfold ClientRequest.modifyAccept
  repeat' split
  all_goals rfl

theorem modifyAccept_body (o : ClientRequest.Options) (r : ClientRequest) :
    (ClientRequest.modifyAccept o r).body = r.body := by
  unfold ClientRequest.modifyAccept
  repeat' split
  all_goals rfl

theorem modifyAccept_headers_none (o : ClientRequest.Options) (r : ClientRequest)
    (h : o.accept = none) :
    (ClientRequest.modifyAccept o r).headers = r.headers := by
  unfold ClientRequest.modifyAccept; rw [h]

theorem modifyAcceptJson_method (o : ClientRequest.Options) (r : ClientRequest) :
    (ClientRequest.modifyAcceptJson o r).method = r.method := by
  unfold ClientRequest.modifyAcceptJson; split <;> rfl

theorem modifyAcceptJson_url (o : ClientRequest.Options) (r : ClientRequest) :
    (ClientRequest.modifyAcceptJson o r).url = r.url := by
  unfold ClientRequest.modifyAcceptJson; split <;> rfl

theorem modifyAcceptJson_urlParams (o : ClientRequest.Options) (r : ClientRequest) :
    (ClientRequest.modifyAcceptJson o r).urlParams = r.urlParams := by
  unfold ClientRequest.modifyAcceptJson; split <;> rfl

theorem modifyAcceptJson_hash (o : ClientRequest.Options) (r : ClientRequest) :
    (ClientRequest.modifyAcceptJson o r).hash = r.hash := by
  unfold ClientRequest.modifyAcceptJson; split <;> rfl

theorem modifyAcceptJson_body (o : ClientRequest.Options) (r : ClientRequest) :
    (ClientRequest.modifyAcceptJson o r).body = r.body := by
  unfold ClientRequest.modifyAcceptJson; split <;> rfl

theorem modifyAcceptJson_headers_false (o : ClientRequest.Options) (r : ClientRequest)
    (h : o.acceptJson = false) :
    (ClientRequest.modifyAcceptJson o r).headers = r.headers := by
  unfold ClientRequest.modifyAcceptJson; rw [h]; rfl

/-! ## Claim theorems -/

/-- C9: full replacement is idempotent: setting the method to POST twice
yields the same descriptor as setting it once. -/
theorem claim_C9 (d : ClientRequest) :
    ClientRequest.setMethod (ClientRequest.setMethod d Method.POST) Method.POST =
      ClientRequest.setMethod d Method.POST := rfl

/-- C2 (counterexample): `setBody` does not replace exactly one field:
setting a text body on the empty descriptor also changes the headers
field, contrary to the claim that every field other than the one replaced
equals the corresponding field of the input. -/
theorem claim_C2_counterexample :
    (ClientRequest.setBody ClientRequest.empty (Body.text "hi" "text/plain")).headers ≠
      ClientRequest.empty.headers := by decide

/-- C2 (amended): in this pure embedding a setter cannot alter its input
descriptor, so immutability holds definitionally.  `setMethod`, `setUrl`
on a string, `setHeader`, `setHeaders`, `setUrlParam`, `setUrlParams`,
`appendUrlParam`, `appendUrlParams`, `setHash` and `removeHash` each
replace exactly one field and leave every other field equal to the
corresponding field of the input; `setBody` replaces the body and
additionally recomputes the headers field; `setUrl` on a parsed-URL
object replaces url, urlParams and hash together, leaving method, headers
and body unchanged. -/
theorem claim_C2 :
    (∀ (d : ClientRequest) (m : Method),
      (ClientRequest.setMethod d m).method = m ∧
      (ClientRequest.setMethod d m).url = d.url ∧
      (ClientRequest.setMethod d m).urlParams = d.urlParams ∧
      (ClientRequest.setMethod d m).hash = d.hash ∧
      (ClientRequest.setMethod d m).headers = d.headers ∧
      (ClientRequest.setMethod d m).body = d.body) ∧
    (∀ (d : ClientRequest) (s : String),
      (ClientRequest.setUrl d (UrlInput.str s)).url = s ∧
      (ClientRequest.setUrl d (UrlInput.str s)).method = d.method ∧
      (ClientRequest.setUrl d (UrlInput.str s)).urlParams = d.urlParams ∧
      (ClientRequest.setUrl d (UrlInput.str s)).hash = d.hash ∧
      (ClientRequest.setUrl d (UrlInput.str s)).headers = d.headers ∧
      (ClientRequest.setUrl d (UrlInput.str s)).body = d.body) ∧
    (∀ (d : ClientRequest) (u : URL),
      (ClientRequest.setUrl d (UrlInput.url u)).method = d.method ∧
      (ClientRequest.setUrl d (UrlInput.url u)).headers = d.headers ∧
      (ClientRequest.setUrl d (UrlInput.url u)).body = d.body) ∧
    (∀ (d : ClientRequest) (k v : String),
      (ClientRequest.setHeader d k v).headers = Headers.set d.headers k v ∧
      (ClientRequest.setHeader d k v).method = d.method ∧
      (ClientRequest.setHeader d k v).url = d.url ∧
      (ClientRequest.setHeader d k v).urlParams = d.urlParams ∧
      (ClientRequest.setHeader d k v).hash = d.hash ∧
      (ClientRequest.setHeader d k v).body = d.body) ∧
    (∀ (d : ClientRequest) (i : List (String × String)),
      (ClientRequest.setHeaders d i).headers = Headers.setAll d.headers i ∧
      (ClientRequest.setHeaders d i).method = d.method ∧
      (ClientRequest.setHeaders d i).url = d.url ∧
      (ClientRequest.setHeaders d i).urlParams = d.urlParams ∧
      (ClientRequest.setHeaders d i).hash = d.hash ∧
      (ClientRequest.setHeaders d i).body = d.body) ∧
    (∀ (d : ClientRequest) (k v : String),
      (ClientRequest.setUrlParam d k v).urlParams = UrlParams.set d.urlParams k v ∧
      (ClientRequest.setUrlParam d k v).method = d.method ∧
      (ClientRequest.setUrlParam d k v).url = d.url ∧
      (ClientRequest.setUrlParam d k v).hash = d.hash ∧
      (ClientRequest.setUrlParam d k v).headers = d.headers ∧
      (ClientRequest.setUrlParam d k v).body = d.body) ∧
    (∀ (d : ClientRequest) (i : List (String × String)),
      (ClientRequest.setUrlParams d i).urlParams = UrlParams.setAll d.urlParams i ∧
      (ClientRequest.setUrlParams d i).method = d.method ∧
      (ClientRequest.setUrlParams d i).url = d.url ∧
      (ClientRequest.setUrlParams d i).hash = d.hash ∧
      (ClientRequest.setUrlParams d i).headers = d.headers ∧
      (ClientRequest.setUrlParams d i).body = d.body) ∧
    (∀ (d : ClientRequest) (k v : String),
      (ClientRequest.appendUrlParam d k v).urlParams = UrlParams.append d.urlParams k v ∧
      (ClientRequest.appendUrlParam d k v).method = d.method ∧
      (ClientRequest.appendUrlParam d k v).url = d.url ∧
      (ClientRequest.appendUrlParam d k v).hash = d.hash ∧
      (ClientRequest.appendUrlParam d k v).headers = d.headers ∧
      (ClientRequest.appendUrlParam d k v).body = d.body) ∧
    (∀ (d : ClientRequest) (i : List (String × String)),
      (ClientRequest.appendUrlParams d i).urlParams = UrlParams.appendAll d.urlParams i ∧
      (ClientRequest.appendUrlParams d i).method = d.method ∧
      (ClientRequest.appendUrlParams d i).url = d.url ∧
      (ClientRequest.appendUrlParams d i).hash = d.hash ∧
      (ClientRequest.appendUrlParams d i).headers = d.headers ∧
      (ClientRequest.appendUrlParams d i).body = d.body) ∧
    (∀ (d : ClientRequest) (h : String),
      (ClientRequest.setHash d h).hash = some h ∧
      (ClientRequest.setHash d h).method = d.method ∧
      (ClientRequest.setHash d h).url = d.url ∧
      (ClientRequest.setHash d h).urlParams = d.urlParams ∧
      (ClientRequest.setHash d h).headers = d.headers ∧
      (ClientRequest.setHash d h).body = d.body) ∧
    (∀ (d : ClientRequest),
      (ClientRequest.removeHash d).hash = none ∧
      (ClientRequest.removeHash d).method = d.method ∧
      (ClientRequest.removeHash d).url = d.url ∧
      (ClientRequest.removeHash d).urlParams = d.urlParams ∧
      (ClientRequest.removeHash d).headers = d.headers ∧
      (ClientRequest.removeHash d).body = d.body) ∧
    (∀ (d : ClientRequest) (b : Body),
      (ClientRequest.setBody d b).body = b ∧
      (ClientRequest.setBody d b).method = d.method ∧
      (ClientRequest.setBody d b).url = d.url ∧
      (ClientRequest.setBody d b).urlParams = d.urlParams ∧
      (ClientRequest.setBody d b).hash = d.hash) :=
  ⟨fun _ _ => ⟨rfl, rfl, rfl, rfl, rfl, rfl⟩,
   fun _ _ => ⟨rfl, rfl, rfl, rfl, rfl, rfl⟩,
   fun _ _ => ⟨rfl, rfl, rfl⟩,
   fun _ _ _ => ⟨rfl, rfl, rfl, rfl, rfl, rfl⟩,
   fun _ _ => ⟨rfl, rfl, rfl, rfl, rfl, rfl⟩,
   fun _ _ _ => ⟨rfl, rfl, rfl, rfl, rfl, rfl⟩,
   fun _ _ => ⟨rfl, rfl, rfl, rfl, rfl, rfl⟩,
   fun _ _ _ => ⟨rfl, rfl, rfl, rfl, rfl, rfl⟩,
   fun _ _ => ⟨rfl, rfl, rfl, rfl, rfl, rfl⟩,
   fun _ _ => ⟨rfl, rfl, rfl, rfl, rfl, rfl⟩,
   fun _ => ⟨rfl, rfl, rfl, rfl, rfl, rfl⟩,
   fun _ _ => ⟨rfl, rfl, rfl, rfl, rfl⟩⟩

/-- C6: `appendUrl` concatenates the path onto the url, dropping the
path's leading slash exactly when the current url ends with a slash and
the path starts with one, and `prependUrl` symmetrically; no other field
changes; the two join-slash examples of the claim evaluate as stated. -/
theorem claim_C6 :
    (∀ (d : ClientRequest) (p : String),
      (ClientRequest.appendUrl d p).url =
        (if strEndsWith d.url "/" && strStartsWith p "/" then d.url ++ strDrop p 1
         else d.url ++ p) ∧
      (ClientRequest.appendUrl d p).method = d.method ∧
      (ClientRequest.appendUrl d p).urlParams = d.urlParams ∧
      (ClientRequest.appendUrl d p).hash = d.hash ∧
      (ClientRequest.appendUrl d p).headers = d.headers ∧
      (ClientRequest.appendUrl d p).body = d.body) ∧
    (∀ (d : ClientRequest) (p : String),
      (ClientRequest.prependUrl d p).url =
        (if strEndsWith p "/" && strStartsWith d.url "/" then p ++ strDrop d.url 1
         else p ++ d.url) ∧
      (ClientRequest.prependUrl d p).method = d.method ∧
      (ClientRequest.prependUrl d p).urlParams = d.urlParams ∧
      (ClientRequest.prependUrl d p).hash = d.hash ∧
      (ClientRequest.prependUrl d p).headers = d.headers ∧
      (ClientRequest.prependUrl d p).body = d.body) ∧
    (ClientRequest.appendUrl (ClientRequest.setUrl ClientRequest.empty
      (UrlInput.str "http://h/a/")) "/b").url = "http://h/a/b" ∧
    (ClientRequest.appendUrl (ClientRequest.setUrl ClientRequest.empty
      (UrlInput.str "http://h/a")) "b").url = "http://h/ab" :=
  ⟨fun _ _ => ⟨rfl, rfl, rfl, rfl, rfl, rfl⟩,
   fun _ _ => ⟨rfl, rfl, rfl, rfl, rfl, rfl⟩,
   by decide, by decide⟩

/-- C7 (counterexample): the JSON body setter is not total: on a value
that JSON serialization rejects it yields a body-encoding error instead
of a descriptor. -/
theorem claim_C7_counterexample :
    ClientRequest.jsonBody ClientRequest.empty (JSValue.bigintVal 1) =
      Except.error BodyError.jsonError := rfl

/-- C7 (amended): the JSON, schema-encoding and file-reading body setters
are the fallible operations of the builder; each surfaces a typed
recoverable result, a body-encoding error for the JSON and schema
setters and a platform I/O error for the file setter, and succeeds with
a descriptor exactly when its encoder or read succeeds; `basicAuth` is
total for every pair of strings and changes nothing but the headers. -/
theorem claim_C7 :
    (∀ (d : ClientRequest) (v : JSValue),
      (∃ s, jsonStringify? v = some s ∧
        ClientRequest.jsonBody d v =
          Except.ok (ClientRequest.setBody d (Body.text s "application/json"))) ∨
      (jsonStringify? v = none ∧
        ClientRequest.jsonBody d v = Except.error BodyError.jsonError)) ∧
    (∀ (α : Type) (encode : α → Except BodyError Body) (d : ClientRequest) (a : α),
      (∃ b, encode a = Except.ok b ∧
        ClientRequest.schemaBody encode d a =
          Except.ok (ClientRequest.setBody d b)) ∨
      (∃ e, encode a = Except.error e ∧
        ClientRequest.schemaBody encode d a = Except.error e)) ∧
    (∀ (readFile : String → Except PlatformError Body) (d : ClientRequest) (path : String),
      (∃ b, readFile path = Except.ok b ∧
        ClientRequest.fileBody readFile d path =
          Except.ok (ClientRequest.setBody d b)) ∨
      (∃ e, readFile path = Except.error e ∧
        ClientRequest.fileBody readFile d path = Except.error e)) ∧
    (∀ (d : ClientRequest) (username password : String),
      (ClientRequest.basicAuth d username password).method = d.method ∧
      (ClientRequest.basicAuth d username password).url = d.url ∧
      (ClientRequest.basicAuth d username password).urlParams = d.urlParams ∧
      (ClientRequest.basicAuth d username password).hash = d.hash ∧
      (ClientRequest.basicAuth d username password).body = d.body) := by
  refine ⟨?_, ?_, ?_, fun _ _ _ => ⟨rfl, rfl, rfl, rfl, rfl⟩⟩
  · intro d v
    cases hv : jsonStringify? v with
    | some s =>
      refine Or.inl ⟨s, rfl, ?_⟩
      unfold ClientRequest.jsonBody internalBody.json
      rw [hv]
      rfl
    | none =>
      refine Or.inr ⟨rfl, ?_⟩
      unfold ClientRequest.jsonBody internalBody.json
      rw [hv]
      rfl
  · intro α encode d a
    cases he : encode a with
    | ok b =>
      refine Or.inl ⟨b, rfl, ?_⟩
      unfold ClientRequest.schemaBody
      rw [he]
      rfl
    | error e =>
      refine Or.inr ⟨e, rfl, ?_⟩
      unfold ClientRequest.schemaBody
      rw [he]
      rfl
  · intro readFile d path
    cases he : readFile path with
    | ok b =>
      refine Or.inl ⟨b, rfl, ?_⟩
      unfold ClientRequest.fileBody
      rw [he]
      rfl
    | error e =>
      refine Or.inr ⟨e, rfl, ?_⟩
      unfold ClientRequest.fileBody
      rw [he]
      rfl

/-- C8 (counterexample): the Authorization header written by `basicAuth`
is not the bare base64 encoding of `username:password`; it carries the
Basic scheme tag in front of it: for the credentials u and p the base64
encoding is "dTpw" while the header reads "Basic dTpw". -/
theorem claim_C8_counterexample :
    Headers.get (ClientRequest.basicAuth ClientRequest.empty "u" "p").headers
      "Authorization" = some "Basic dTpw" ∧
    btoa ("u" ++ ":" ++ "p") = "dTpw" ∧
    ("Basic dTpw" : String) ≠ "dTpw" := by decide

/-- C8 (amended): `basicAuth` sets the Authorization header to the string
"Basic " followed by the base64 encoding of `username + ":" + password`,
for every pair of strings and with no validation of colons in the
inputs, and changes no other field of the descriptor. -/
theorem claim_C8 :
    (∀ (d : ClientRequest) (username password : String),
      (ClientRequest.basicAuth d username password).headers =
        Headers.set d.headers "Authorization"
          ("Basic " ++ btoa (username ++ ":" ++ password)) ∧
      (ClientRequest.basicAuth d username password).method = d.method ∧
      (ClientRequest.basicAuth d username password).url = d.url ∧
      (ClientRequest.basicAuth d username password).urlParams = d.urlParams ∧
      (ClientRequest.basicAuth d username password).hash = d.hash ∧
      (ClientRequest.basicAuth d username password).body = d.body) ∧
    btoa ("u" ++ ":" ++ "p") = "dTpw" ∧
    Headers.get (ClientRequest.basicAuth ClientRequest.empty "u" "p").headers
      "authorization" = some "Basic dTpw" :=
  ⟨fun _ _ _ => ⟨rfl, rfl, rfl, rfl, rfl, rfl⟩, by decide, by decide⟩

/-- C1 (counterexample): a content-length header left over from a
previous body survives a `setBody` whose body carries no content-length:
after setting the text body "hi" (content-length "2") and then a streamed
body without a content length, the header still reads "2". -/
theorem claim_C1_counterexample :
    Body.contentLength (Body.stream "application/octet-stream" none) = none ∧
    Headers.get (ClientRequest.setBody
      (ClientRequest.textBody ClientRequest.empty "hi" "text/plain")
      (Body.stream "application/octet-stream" none)).headers "content-length" =
      some "2" := by decide

/-- C1 (amended): `setBody` with the Empty body removes both the
content-type and content-length headers; `setBody` with a non-Empty body
sets the headers its metadata carries (after `textBody d "hi"
"text/plain"` the content-type header is "text/plain" and the
content-length header is "2"), but it does not clear a header whose
metadata value is absent: a previous content-length header survives a
`setBody` whose body carries no content length. -/
theorem claim_C1 :
    (∀ d : ClientRequest,
      Headers.get (ClientRequest.setBody d Body.empty).headers "content-type" = none ∧
      Headers.get (ClientRequest.setBody d Body.empty).headers "content-length" = none) ∧
    (∀ d : ClientRequest,
      Headers.get (ClientRequest.textBody d "hi" "text/plain").headers "content-type" =
        some "text/plain" ∧
      Headers.get (ClientRequest.textBody d "hi" "text/plain").headers "content-length" =
        some "2") ∧
    (∀ (d : ClientRequest) (ct : String),
      Headers.get (ClientRequest.setBody d (Body.stream ct none)).headers
        "content-length" = Headers.get d.headers "content-length") := by
  refine ⟨?_, ?_, ?_⟩
  · intro d
    constructor
    · show Headers.get (Headers.remove (Headers.remove d.headers "Content-Type")
        "Content-length") "content-type" = none
      rw [Headers.get_remove_ne _ _ _ (by decide)]
      exact Headers.get_remove_self _ _ _ (by decide)
    · show Headers.get (Headers.remove (Headers.remove d.headers "Content-Type")
        "Content-length") "content-length" = none
      exact Headers.get_remove_self _ _ _ (by decide)
  · intro d
    constructor
    · show Headers.get (Headers.set (Headers.set d.headers "content-type" "text/plain")
        "content-length" "2") "content-type" = some "text/plain"
      rw [Headers.get_set_ne _ _ _ _ (by decide)]
      exact Headers.get_set_self _ _ _ _ (by decide)
    · show Headers.get (Headers.set (Headers.set d.headers "content-type" "text/plain")
        "content-length" "2") "content-length" = some "2"
      exact Headers.get_set_self _ _ _ _ (by decide)
  · intro d ct
    show Headers.get (if ct = "" then d.headers
      else Headers.set d.headers "content-type" ct) "content-length" =
      Headers.get d.headers "content-length"
    by_cases h : ct = ""
    · rw [if_pos h]
    · rw [if_neg h]
      exact Headers.get_set_ne _ _ _ _ (by decide)

/-- C3 (counterexample): a present option whose value is falsy does not
trigger its setter: modifying a descriptor whose url is "/old" with an
options value holding the empty-string url leaves the url "/old", even
though `setUrl` itself would have stored the empty string. -/
theorem claim_C3_counterexample :
    (ClientRequest.modify (ClientRequest.setUrl ClientRequest.empty (UrlInput.str "/old"))
      { url := some (UrlInput.str "") }).url = "/old" ∧
    (ClientRequest.setUrl (ClientRequest.setUrl ClientRequest.empty (UrlInput.str "/old"))
      (UrlInput.str "")).url = "" := by decide

/-- C3 (amended): `modify` applies the present options whose values are
truthy in the fixed order method, url, headers, urlParams, hash, body,
accept, acceptJson, skipping present options whose values are falsy
(such as an empty-string url or hash, which leave the field unchanged);
the claim's example holds, and the fixed order makes a later acceptJson
override an accept header given in the headers option. -/
theorem claim_C3 :
    (∀ d : ClientRequest,
      (ClientRequest.modify d
        { url := some (UrlInput.str "/new"), accept := some "application/json" }).url =
        "/new" ∧
      Headers.get (ClientRequest.modify d
        { url := some (UrlInput.str "/new"), accept := some "application/json" }).headers
        "accept" = some "application/json") ∧
    (∀ d : ClientRequest,
      Headers.get (ClientRequest.modify d
        { headers := some [("accept", "text/html")], acceptJson := true }).headers
        "accept" = some "application/json") ∧
    (∀ d : ClientRequest,
      ClientRequest.modify d { url := some (UrlInput.str ""), hash := some "" } = d) ∧
    (∀ (d : ClientRequest) (s : String),
      (ClientRequest.modify d { url := some (UrlInput.str s) }).url =
        if s = "" then d.url else s) := by
  refine ⟨?_, ?_, fun d => rfl, ?_⟩
  · intro d
    refine ⟨rfl, ?_⟩
    show Headers.get (Headers.set d.headers "Accept" "application/json") "accept" =
      some "application/json"
    exact Headers.get_set_self _ _ _ _ (by decide)
  · intro d
    show Headers.get (Headers.set (Headers.setAll d.headers [("accept", "text/html")])
      "Accept" "application/json") "accept" = some "application/json"
    exact Headers.get_set_self _ _ _ _ (by decide)
  · intro d s
    by_cases h : s = ""
    · subst h
      rw [if_pos rfl]
      rfl
    · rw [if_neg h]
      have ht : urlTruthy (UrlInput.str s) = true := by
        simp [urlTruthy, h]
      show (if urlTruthy (UrlInput.str s) = true then
          ClientRequest.setUrl d (UrlInput.str s) else d).url = s
      rw [ht]
      rfl

/-- C4 (counterexample): a descriptor constructed from a full URL given
as a string keeps the query string and fragment inside its url field
(nothing is decomposed into urlParams), so the url contains a literal
question mark. -/
theorem claim_C4_counterexample :
    hasChar (ClientRequest.get (UrlInput.str "https://h/p?a=1&b=2#frag") {}).url '?' = true ∧
    hasChar (ClientRequest.get (UrlInput.str "https://h/p?a=1&b=2#frag") {}).url '#' = true ∧
    (ClientRequest.get (UrlInput.str "https://h/p?a=1&b=2#frag") {}).urlParams =
      UrlParams.empty := by decide

/-- C4 (amended): only a url given as a parsed-URL object is decomposed:
for every descriptor and URL object, the url stored by `setUrl` contains
neither a literal question mark nor a literal number sign (query and
fragment go to urlParams and hash); a url given as a string is stored
verbatim and may contain both. -/
theorem claim_C4 (d : ClientRequest) (u : URL) :
    hasChar (ClientRequest.setUrl d (UrlInput.url u)).url '?' = false ∧
    hasChar (ClientRequest.setUrl d (UrlInput.url u)).url '#' = false := by
  constructor
  · show hasCharL (splitCh (splitCh (URL.toString u).toList '#').1 '?').1 '?' = false
    exact hasCharL_splitCh_self _ _
  · show hasCharL (splitCh (splitCh (URL.toString u).toList '#').1 '?').1 '#' = false
    exact hasCharL_splitCh_of _ _ _ (hasCharL_splitCh_self _ _)

/-- C5: constructing a descriptor from the parsed URL
"https://h/p?a=1&b=2#frag" yields the base url "https://h/p", the query
parameters a=1 and b=2 in insertion order, and the fragment "frag"
stored without its leading number sign; reserializing base url, encoded
parameters and fragment reproduces the input URL. -/
theorem claim_C5 :
    (ClientRequest.get (UrlInput.url (URL.ofString "https://h/p?a=1&b=2#frag")) {}).url =
      "https://h/p" ∧
    (ClientRequest.get (UrlInput.url (URL.ofString "https://h/p?a=1&b=2#frag")) {}).urlParams =
      [("a", "1"), ("b", "2")] ∧
    (ClientRequest.get (UrlInput.url (URL.ofString "https://h/p?a=1&b=2#frag")) {}).hash =
      some "frag" ∧
    (ClientRequest.get (UrlInput.url (URL.ofString "https://h/p?a=1&b=2#frag")) {}).url ++
        "?" ++ UrlParams.toString (ClientRequest.get (UrlInput.url
          (URL.ofString "https://h/p?a=1&b=2#frag")) {}).urlParams ++ "#" ++ "frag" =
      "https://h/p?a=1&b=2#frag" := by decide

/-- C10: the empty descriptor has method GET, empty url, no query
parameters, no fragment, no headers and the Empty body; every per-method
constructor, hence get, post, put, patch, del, head and options, is
exactly a modify of empty with the given method and url merged into the
options by spread semantics; and every field not set by the method, the
url or a present option keeps the empty defaults. -/
theorem claim_C10 :
    (ClientRequest.empty.method = Method.GET ∧ ClientRequest.empty.url = "" ∧
      ClientRequest.empty.urlParams = UrlParams.empty ∧
      ClientRequest.empty.hash = none ∧
      ClientRequest.empty.headers = Headers.empty ∧
      ClientRequest.empty.body = Body.empty) ∧
    (∀ (m : Method) (u : UrlInput) (o : ClientRequest.Options),
      ClientRequest.make m u o = ClientRequest.modify ClientRequest.empty
        { o with method := o.method.orElse fun _ => some m, url := o.url.orElse fun _ => some u }) ∧
    (∀ (u : UrlInput) (o : ClientRequest.Options),
      ClientRequest.get u o = ClientRequest.make Method.GET u o ∧
      ClientRequest.post u o = ClientRequest.make Method.POST u o ∧
      ClientRequest.put u o = ClientRequest.make Method.PUT u o ∧
      ClientRequest.patch u o = ClientRequest.make Method.PATCH u o ∧
      ClientRequest.del u o = ClientRequest.make Method.DELETE u o ∧
      ClientRequest.head u o = ClientRequest.make Method.HEAD u o ∧
      ClientRequest.options u o = ClientRequest.make Method.OPTIONS u o) ∧
    (∀ (m : Method) (u : UrlInput) (o : ClientRequest.Options),
      o.method = none → (ClientRequest.make m u o).method = m) ∧
    (∀ (m : Method) (u : UrlInput) (o : ClientRequest.Options),
      o.body = none → (ClientRequest.make m u o).body = Body.empty) ∧
    (∀ (m : Method) (s : String) (o : ClientRequest.Options),
      o.url = none → o.urlParams = none →
      (ClientRequest.make m (UrlInput.str s) o).urlParams = UrlParams.empty) ∧
    (∀ (m : Method) (s : String) (o : ClientRequest.Options),
      o.url = none → o.hash = none →
      (ClientRequest.make m (UrlInput.str s) o).hash = none) ∧
    (∀ (m : Method) (u : UrlInput) (o : ClientRequest.Options),
      o.headers = none → o.body = none → o.accept = none → o.acceptJson = false →
      (ClientRequest.make m u o).headers = Headers.empty) := by
  refine ⟨⟨rfl, rfl, rfl, rfl, rfl, rfl⟩, fun m u o => rfl,
    fun u o => ⟨rfl, rfl, rfl, rfl, rfl, rfl, rfl⟩, ?_, ?_, ?_, ?_, ?_⟩
  · intro m u o hm
    have hmm : ({ o with method := o.method.orElse fun _ => some m, url := o.url.orElse fun _ => some u } : ClientRequest.Options).method = some m := by
      show o.method.orElse (fun _ => some m) = some m
      rw [hm]
      rfl
    unfold ClientRequest.make ClientRequest.modify
    rw [modifyAcceptJson_method, modifyAccept_method, modifyBody_method, modifyHash_method,
      modifyUrlParams_method, modifyHeaders_method, modifyUrl_method]
    exact modifyMethod_method_some _ _ _ hmm
  · intro m u o hb
    have hb' : ({ o with method := o.method.orElse fun _ => some m, url := o.url.orElse fun _ => some u } : ClientRequest.Options).body = none := hb
    unfold ClientRequest.make ClientRequest.modify
    rw [modifyAcceptJson_body, modifyAccept_body, modifyBody_body_none _ _ hb',
      modifyHash_body, modifyUrlParams_body, modifyHeaders_body, modifyUrl_body,
      modifyMethod_body]
    rfl
  · intro m s o hu hp
    have hu' : ({ o with method := o.method.orElse fun _ => some m, url := o.url.orElse fun _ => some (UrlInput.str s) } : ClientRequest.Options).url = some (UrlInput.str s) := by
      show o.url.orElse (fun _ => some (UrlInput.str s)) = some (UrlInput.str s)
      rw [hu]
      rfl
    have hp' : ({ o with method := o.method.orElse fun _ => some m, url := o.url.orElse fun _ => some (UrlInput.str s) } : ClientRequest.Options).urlParams = none := hp
    unfold ClientRequest.make ClientRequest.modify
    rw [modifyAcceptJson_urlParams, modifyAccept_urlParams, modifyBody_urlParams,
      modifyHash_urlParams, modifyUrlParams_urlParams_none _ _ hp',
      modifyHeaders_urlParams, modifyUrl_urlParams_str _ _ s hu', modifyMethod_urlParams]
    rfl
  · intro m s o hu hh
    have hu' : ({ o with method := o.method.orElse fun _ => some m, url := o.url.orElse fun _ => some (UrlInput.str s) } : ClientRequest.Options).url = some (UrlInput.str s) := by
      show o.url.orElse (fun _ => some (UrlInput.str s)) = some (UrlInput.str s)
      rw [hu]
      rfl
    have hh' : ({ o with method := o.method.orElse fun _ => some m, url := o.url.orElse fun _ => some (UrlInput.str s) } : ClientRequest.Options).hash = none := hh
    unfold ClientRequest.make ClientRequest.modify
    rw [modifyAcceptJson_hash, modifyAccept_hash, modifyBody_hash,
      modifyHash_hash_none _ _ hh', modifyUrlParams_hash, modifyHeaders_hash,
      modifyUrl_hash_str _ _ s hu', modifyMethod_hash]
    rfl
  · intro m u o hhd hb ha haj
    have hhd' : ({ o with method := o.method.orElse fun _ => some m, url := o.url.orElse fun _ => some u } : ClientRequest.Options).headers = none := hhd
    have hb' : ({ o with method := o.method.orElse fun _ => some m, url := o.url.orElse fun _ => some u } : ClientRequest.Options).body = none := hb
    have ha' : ({ o with method := o.method.orElse fun _ => some m, url := o.url.orElse fun _ => some u } : ClientRequest.Options).accept = none := ha
    have haj' : ({ o with method := o.method.orElse fun _ => some m, url := o.url.orElse fun _ => some u } : ClientRequest.Options).acceptJson = false := haj
    unfold ClientRequest.make ClientRequest.modify
    rw [modifyAcceptJson_headers_false _ _ haj', modifyAccept_headers_none _ _ ha',
      modifyBody_headers_none _ _ hb', modifyHash_headers, modifyUrlParams_headers,
      modifyHeaders_headers_none _ _ hhd', modifyUrl_headers, modifyMethod_headers]
    rfl

/-- Witness for C10: at method POST, the url "x" and the default options,
the hypotheses hold and each field not set by the constructor keeps the
empty default. -/
theorem claim_C10_witness :
    ({} : ClientRequest.Options).body = none ∧
    (ClientRequest.make Method.POST (UrlInput.str "x") {}).method = Method.POST ∧
    (ClientRequest.make Method.POST (UrlInput.str "x") {}).body = Body.empty ∧
    (ClientRequest.make Method.POST (UrlInput.str "x") {}).urlParams = UrlParams.empty ∧
    (ClientRequest.make Method.POST (UrlInput.str "x") {}).hash = none ∧
    (ClientRequest.make Method.POST (UrlInput.str "x") {}).headers = Headers.empty :=
  ⟨rfl,
   claim_C10.2.2.2.1 Method.POST (UrlInput.str "x") {} rfl,
   claim_C10.2.2.2.2.1 Method.POST (UrlInput.str "x") {} rfl,
   claim_C10.2.2.2.2.2.1 Method.POST "x" {} rfl rfl,
   claim_C10.2.2.2.2.2.2.1 Method.POST "x" {} rfl rfl,
   claim_C10.2.2.2.2.2.2.2 Method.POST (UrlInput.str "x") {} rfl rfl rfl rfl⟩
